import Mathlib

/-!
Verification of the profile-loading core of `rhasspy/profiles.py`
(rhasspy-hassio-addon): the recursive settings merger, the path resolver
(`read_path`, `read_paths`, `write_path`) and the layer loader
(`Profile.__init__` / `Profile.load_profile`).

Modelling conventions:
* JSON documents (as produced by the `json5` parser) are the inductive
  type `Json`; objects are association lists of string keys, which keep
  CPython dict semantics: updating an existing key keeps its position,
  inserting a new key appends at the end.
* The filesystem is a snapshot: a list of (path, parsed content) pairs for
  readable files, a list of existing directory paths, and a list of paths
  at which `os.makedirs` fails (abstracting OS-level failures such as
  missing permissions — the only thing the code observes is the raised
  exception).
* `os.path.join(a, b)` is modelled as `a ++ "/" ++ b` (no component in the
  code is absolute or empty).
* Python exceptions are modelled by `Option`/`none`: a function returns
  `none` exactly when the corresponding Python code raises.
-/

namespace Rhasspy

/-- A parsed JSON(5) document.  Objects are ordered association lists,
mirroring CPython's insertion-ordered `dict`. -/
inductive Json where
  | obj  : List (String × Json) → Json
  | arr  : List Json → Json
  | str  : String → Json
  | num  : Int → Json
  | bool : Bool → Json
  | null : Json

/-- First value stored under key `k`, like `d[k]` on a Python dict. -/
def lookupKey (k : String) : List (String × Json) → Option Json
  | [] => none
  | (k', v') :: rest => if k' = k then some v' else lookupKey k rest

/-- Assignment `d[k] = v` on a Python dict: replace the value in place if the key is
present (keeping its position), otherwise append the new pair. -/
def setKey (k : String) (v : Json) : List (String × Json) → List (String × Json)
  | [] => [(k, v)]
  | (k', v') :: rest =>
    if k' = k then (k', v) :: rest else (k', v') :: setKey k v rest

mutual

/-- Modelled from the spec: `recursive_update` of `rhasspy/utils.py` (the
Recursive Merger, §4.1), whose source file is not part of this corpus.
`merge(destination, source)`: for every key of `source`, insert the value
if the key is absent from `destination`; recurse if both sides hold nested
trees; otherwise `source`'s value overwrites `destination`'s entirely.
Non-object arguments fall under the overwrite rule. -/
def recursive_update : Json → Json → Json
  | Json.obj dest, Json.obj src => Json.obj (mergeInto dest src)
  | _, src => src

/-- Fold the source association list into the destination, key by key. -/
def mergeInto (dest : List (String × Json)) : List (String × Json) → List (String × Json)
  | [] => dest
  | (k, v) :: rest =>
    let newVal :=
      match lookupKey k dest with
      | some old => recursive_update old v
      | none => v
    mergeInto (setKey k newVal dest) rest

end

/-- Snapshot of the filesystem as the code observes it:
`files` are readable regular files with their parsed JSON content,
`dirs` are further existing paths (directories), and `deny` are the
paths at which `os.makedirs` raises (permissions, read-only mounts, …). -/
structure FileSys where
  files : List (String × Json)
  dirs : List String
  deny : List String

/-- Python `os.path.join` for the non-absolute components used by this code. -/
def pjoin (a b : String) : String := a ++ "/" ++ b

/-- Fold the remaining components onto `base`, as `os.path.join(base, *parts)`. -/
def joinParts (base : String) (parts : List String) : String :=
  parts.foldl pjoin base

/-- Python `os.path.exists`: true for readable files and for directories. -/
def pathExists (fs : FileSys) (p : String) : Bool :=
  fs.files.any (fun e => e.1 == p) || fs.dirs.contains p

/-- Reading via `open(p)` followed by `json5.load`: the parsed content of the
first file entry at `p`, or `none` when `open` raises. -/
def readFile (fs : FileSys) (p : String) : Option Json :=
  (fs.files.find? (fun e => e.1 == p)).map (fun e => e.2)

/-- Python `os.path.split(p)[0]`: everything before the last slash (empty when
there is none). -/
def dirName (p : String) : String :=
  String.mk ((p.data.reverse.dropWhile (fun c => c ≠ '/')).drop 1).reverse

/-- Python `os.makedirs(d, exist_ok=True)`: fails on denied paths, otherwise
records the directory as existing.  (Creation of intermediate directories
is abstracted: only existence and success/failure are observed.) -/
def makedirs (fs : FileSys) (d : String) : Option FileSys :=
  if fs.deny.contains d then none
  else some { fs with dirs := d :: fs.dirs }

/-- The candidate full path for one root: `os.path.join(root, name, *parts)`. -/
def candidate (root name : String) (parts : List String) : String :=
  joinParts (pjoin root name) parts

/-- Method `Profile.read_path(*path_parts)` (profiles.py:87-97): walk `profiles_dirs`
in order, returning the first joined path that exists; otherwise fall back to
`os.path.join("profiles", name, path_parts[-1])`.  With an empty parts list
`path_parts[-1]` raises `IndexError`, modelled as `none`. -/
def read_path (fs : FileSys) (name : String) (dirs : List String)
    (parts : List String) : Option String :=
  match dirs.find? (fun d => pathExists fs (candidate d name parts)) with
  | some d => some (candidate d name parts)
  | none => parts.getLast?.map (fun last => pjoin (pjoin "profiles" name) last)

/-- Method `Profile.read_paths(*path_parts)` (profiles.py:99-110): every joined path
that exists, in root order; no fallback. -/
def read_paths (fs : FileSys) (name : String) (dirs : List String)
    (parts : List String) : List String :=
  (dirs.map (fun d => candidate d name parts)).filter (pathExists fs)

/-- Method `Profile.write_path(*path_parts)` (profiles.py:112-130): for each root try
to create the containing directory of the joined path, returning the path on
the first success; a failure is logged and the next root is tried.  After all
roots fail, create the containing directory of
`os.path.join("profiles", name, *path_parts)`; a failure there propagates
(`none`). -/
def write_path (fs : FileSys) (name : String) (dirs : List String)
    (parts : List String) : Option (String × FileSys) :=
  match dirs with
  | [] =>
    let full := candidate "profiles" name parts
    (makedirs fs (dirName full)).map (fun fs' => (full, fs'))
  | d :: rest =>
    let full := candidate d name parts
    match makedirs fs (dirName full) with
    | some fs' => some (full, fs')
    | none => write_path fs name rest parts

/-- Method `Profile.write_dir(*dir_parts)` (profiles.py:132-148): like `write_path`
but the joined path itself is created and returned. -/
def write_dir (fs : FileSys) (name : String) (dirs : List String)
    (parts : List String) : Option (String × FileSys) :=
  match dirs with
  | [] =>
    let full := candidate "profiles" name parts
    (makedirs fs full).map (fun fs' => (full, fs'))
  | d :: rest =>
    let full := candidate d name parts
    match makedirs fs full with
    | some fs' => some (full, fs')
    | none => write_dir fs name rest parts

/-- The state of a `Profile` object after `__init__` has run
(profiles.py:19-32): the identity fields plus the two settings trees
produced by `load_profile`. -/
structure Profile where
  name : String
  system_profiles_dir : String
  user_profiles_dir : String
  profiles_dirs : List String
  layers : String
  json : Json
  system_json : Json
  json_path : Option String

/-- Overlay stage of `load_profile` (profiles.py:81-85): for each root (the
caller passes `profiles_dirs` reversed, so system root first, user root last)
check `<root>/<name>/profile.json`; if it exists, parse it and merge it into
the accumulator.  `none` models `open`/parse raising on an existing but
unreadable path. -/
def foldOverlay (fs : FileSys) (name : String) :
    List String → Json → Option Json
  | [], j => some j
  | d :: rest, j =>
    let p := pjoin (pjoin d name) "profile.json"
    if pathExists fs p then
      match readFile fs p with
      | some c => foldOverlay fs name rest (recursive_update j c)
      | none => none
    else foldOverlay fs name rest j

/-- Constructor `Profile.__init__` / `Profile.load_profile` (profiles.py:19-85).
Stage 1, if `layers` is `all` or `defaults`: parse
`<system_profiles_dir>/defaults.json` twice into `json` and `system_json`
(two independent `json5.load` calls on the same file — the trees share no
structure).  Stage 2, always: parse `<system_profiles_dir>/<name>/profile.json`
and merge it into `system_json` only.  Stage 3, if `layers` is `all` or
`profile`: merge each existing `<root>/<name>/profile.json` into `json`,
system root first, user root last.  `none` models an exception escaping the
constructor. -/
def mkProfile (fs : FileSys) (name system_profiles_dir user_profiles_dir : String)
    (layers : String) : Option Profile :=
  let profiles_dirs := [user_profiles_dir, system_profiles_dir]
  let stage1 : Option (Json × Json) :=
    if layers = "all" ∨ layers = "defaults" then
      match readFile fs (pjoin system_profiles_dir "defaults.json") with
      | some d =>
        match readFile fs (pjoin system_profiles_dir "defaults.json") with
        | some d' => some (d, d')
        | none => none
      | none => none
    else some (Json.obj [], Json.obj [])
  match stage1 with
  | none => none
  | some (json₀, systemJson₀) =>
    match readFile fs (pjoin (pjoin system_profiles_dir name) "profile.json") with
    | none => none
    | some sysProfile =>
      let system_json := recursive_update systemJson₀ sysProfile
      let json_path := read_path fs name profiles_dirs ["profile.json"]
      let jsonFinal : Option Json :=
        if layers = "all" ∨ layers = "profile" then
          foldOverlay fs name profiles_dirs.reverse json₀
        else some json₀
      match jsonFinal with
      | none => none
      | some json =>
        some { name, system_profiles_dir, user_profiles_dir, profiles_dirs,
               layers, json, system_json, json_path }

/-- Split a character list at every occurrence of `c` (Python `str.split`). -/
def splitChar (c : Char) : List Char → List (List Char)
  | [] => [[]]
  | x :: xs =>
    let r := splitChar c xs
    if x = c then [] :: r
    else match r with
      | [] => [[x]]
      | g :: gs => (x :: g) :: gs

/-- Split a dotted path into its segments. -/
def splitDots (s : String) : List String :=
  (splitChar '.' s.data).map String.mk

/-- Modelled from the spec: the collaborator `pydash.set_` (§6, dotted-path
accessor), an external library.  Assign `v` at the dotted path, creating
intermediate nested trees as needed; a non-tree intermediate node is
replaced by a fresh tree. -/
def dottedSet : Json → List String → Json → Json
  | _, [], v => v
  | j, k :: rest, v =>
    let fields := match j with | Json.obj f => f | _ => []
    let child :=
      match rest, lookupKey k fields with
      | [], _ => v
      | _ :: _, some old => dottedSet old rest v
      | _ :: _, none => dottedSet Json.null rest v
    Json.obj (setKey k child fields)

/-- Method `Profile.set(path, value)` (profiles.py:50-52): `pydash.set_(self.json,
path, value)` — a dotted-path assignment into `json` and nothing else. -/
def Profile.set (p : Profile) (path : String) (v : Json) : Profile :=
  { p with json := dottedSet p.json (splitDots path) v }

/-- The keys of an association list, in order. -/
def keysOf (fields : List (String × Json)) : List String :=
  fields.map Prod.fst

/-- No key occurs twice (Python dicts guarantee this for every level of a
parsed document). -/
def noDupKeys : List String → Bool
  | [] => true
  | k :: rest => decide (k ∉ rest) && noDupKeys rest

mutual

/-- A document is a Settings Tree in the sense of the spec: every object in
it has pairwise-distinct keys, as any tree produced by the JSON parser does. -/
def wellFormed : Json → Bool
  | Json.obj fields => noDupKeys (keysOf fields) && wfFields fields
  | Json.arr items => wfList items
  | _ => true

/-- All values of an association list are well-formed. -/
def wfFields : List (String × Json) → Bool
  | [] => true
  | (_, v) :: rest => wellFormed v && wfFields rest

/-- All elements of a list are well-formed. -/
def wfList : List Json → Bool
  | [] => true
  | x :: xs => wellFormed x && wfList xs

end

/-! ### Helper lemmas about the merger -/

/-- Writing back the value a key already holds leaves the list unchanged. -/
theorem setKey_of_lookup {k : String} {v : Json} :
    ∀ {dest : List (String × Json)},
      lookupKey k dest = some v → setKey k v dest = dest := by
  intro dest
  induction dest with
  | nil => intro h; simp [lookupKey] at h
  | cons e rest ih =>
    intro h
    obtain ⟨k', v'⟩ := e
    by_cases hk : k' = k
    · simp [lookupKey, hk] at h
      simp [setKey, hk, h]
    · simp [lookupKey, hk] at h
      simp [setKey, hk, ih h]

/-- Under distinct keys, membership determines the lookup result. -/
theorem lookup_of_mem {k : String} {v : Json} :
    ∀ {dest : List (String × Json)},
      noDupKeys (keysOf dest) = true → (k, v) ∈ dest →
      lookupKey k dest = some v := by
  intro dest
  induction dest with
  | nil => intro _ h; simp at h
  | cons e rest ih =>
    intro hnd hmem
    obtain ⟨k', v'⟩ := e
    have hnd' : (decide (k' ∉ keysOf rest) && noDupKeys (keysOf rest)) = true := hnd
    rw [Bool.and_eq_true, decide_eq_true_eq] at hnd'
    rcases List.mem_cons.1 hmem with heq | htail
    · cases heq
      simp [lookupKey]
    · have hk : k' ≠ k := by
        intro hkk
        subst hkk
        exact hnd'.1 (List.mem_map.2 ⟨(k', v), htail, rfl⟩)
      simp only [lookupKey, if_neg hk]
      exact ih hnd'.2 htail

/-- Folding a source whose every entry is already present (with an
idempotently-merging value) into a destination changes nothing. -/
theorem mergeInto_self_of {dest : List (String × Json)} :
    ∀ src : List (String × Json),
      (∀ k v, (k, v) ∈ src →
        lookupKey k dest = some v ∧ recursive_update v v = v) →
      mergeInto dest src = dest := by
  intro src
  induction src with
  | nil => intro _; rfl
  | cons e rest ih =>
    intro h
    obtain ⟨k, v⟩ := e
    have hkv := h k v (List.mem_cons_self _ _)
    rw [mergeInto]
    simp only [hkv.1, hkv.2]
    rw [setKey_of_lookup hkv.1]
    exact ih (fun k' v' hm => h k' v' (List.mem_cons_of_mem _ hm))

/-- Well-formedness of an association list passes to each stored value. -/
theorem wfFields_mem {k : String} {v : Json} :
    ∀ {fields : List (String × Json)},
      wfFields fields = true → (k, v) ∈ fields → wellFormed v = true := by
  intro fields
  induction fields with
  | nil => intro _ h; simp at h
  | cons e rest ih =>
    intro hwf hmem
    obtain ⟨k', v'⟩ := e
    have hwf' : (wellFormed v' && wfFields rest) = true := hwf
    rw [Bool.and_eq_true] at hwf'
    rcases List.mem_cons.1 hmem with heq | htail
    · cases heq
      exact hwf'.1
    · exact ih hwf'.2 htail

/-! ### Claim theorems -/

/-- C9: the recursive merge used to fold layers is idempotent — merging a
copy of any Settings Tree `T` with `T` itself yields a tree equal to `T`
(well-formedness, i.e. distinct keys per object as every parsed document
has, is what "Settings Tree" means). -/
theorem merge_idempotent : ∀ (T : Json), wellFormed T = true → recursive_update T T = T
  | Json.obj fields, h => by
    have h' : (noDupKeys (keysOf fields) && wfFields fields) = true := h
    rw [Bool.and_eq_true] at h'
    show Json.obj (mergeInto fields fields) = Json.obj fields
    congr 1
    apply mergeInto_self_of
    intro k v hmem
    exact ⟨lookup_of_mem h'.1 hmem, merge_idempotent v (wfFields_mem h'.2 hmem)⟩
  | Json.arr _, _ => rfl
  | Json.str _, _ => rfl
  | Json.num _, _ => rfl
  | Json.bool _, _ => rfl
  | Json.null, _ => rfl
termination_by T _ => sizeOf T
decreasing_by
  have h1 := List.sizeOf_lt_of_mem hmem
  simp only [Prod.mk.sizeOf_spec] at h1
  simp only [Json.obj.sizeOf_spec]
  omega

/-- Concrete instantiation of `merge_idempotent` on a nested tree. -/
theorem merge_idempotent_witness :
    wellFormed (Json.obj [("a", Json.num 1), ("b", Json.obj [("c", Json.str "x")])]) = true
    ∧ recursive_update (Json.obj [("a", Json.num 1), ("b", Json.obj [("c", Json.str "x")])])
        (Json.obj [("a", Json.num 1), ("b", Json.obj [("c", Json.str "x")])])
      = Json.obj [("a", Json.num 1), ("b", Json.obj [("c", Json.str "x")])] :=
  ⟨rfl, merge_idempotent _ rfl⟩

/-- C3: when the joined relative path exists under both the user root and
the system root, `read_path` returns the user-root path. -/
theorem read_path_prefers_user_root
    (fs : FileSys) (name userDir sysDir : String) (parts : List String)
    (hne : parts ≠ [])
    (hu : pathExists fs (candidate userDir name parts) = true)
    (hs : pathExists fs (candidate sysDir name parts) = true) :
    read_path fs name [userDir, sysDir] parts
      = some (candidate userDir name parts) := by
  have hf : List.find? (fun d => pathExists fs (candidate d name parts))
      [userDir, sysDir] = some userDir :=
    List.find?_cons_of_pos _ hu
  simp [read_path, hf]

/-- Example filesystem: `profile.json` present under both roots. -/
def exBoth : FileSys :=
  { files := [("usr/p/profile.json", Json.null), ("sys/p/profile.json", Json.null)],
    dirs := [], deny := [] }

/-- Empty filesystem: nothing exists, nothing is denied. -/
def emptyFs : FileSys := { files := [], dirs := [], deny := [] }

/-- Applies `read_path_prefers_user_root` at a concrete two-root filesystem. -/
theorem read_path_prefers_user_root_witness :
    (["profile.json"] : List String) ≠ []
    ∧ read_path exBoth "p" ["usr", "sys"] ["profile.json"]
        = some (candidate "usr" "p" ["profile.json"]) :=
  ⟨by simp,
   read_path_prefers_user_root exBoth "p" "usr" "sys" ["profile.json"]
     (by simp) rfl rfl⟩

/-- C4: when the joined relative path exists under neither root, `read_path`
returns `"profiles/<name>/<last segment>"`, built from the literal base
directory and only the final segment, with no existence check on it. -/
theorem read_path_fallback_last_segment
    (fs : FileSys) (name userDir sysDir : String) (parts : List String)
    (last : String)
    (hl : parts.getLast? = some last)
    (hu : pathExists fs (candidate userDir name parts) = false)
    (hs : pathExists fs (candidate sysDir name parts) = false) :
    read_path fs name [userDir, sysDir] parts
      = some (pjoin (pjoin "profiles" name) last) := by
  have hf : List.find? (fun d => pathExists fs (candidate d name parts))
      [userDir, sysDir] = none := by
    rw [List.find?_cons_of_neg, List.find?_cons_of_neg] <;> simp [hu, hs]
  simp [read_path, hf, hl]

/-- Applies `read_path_fallback_last_segment` with two segments on the empty
filesystem: the intermediate segment `"x"` is discarded. -/
theorem read_path_fallback_last_segment_witness :
    (["x", "y.bin"] : List String).getLast? = some "y.bin"
    ∧ read_path emptyFs "p" ["usr", "sys"] ["x", "y.bin"]
        = some (pjoin (pjoin "profiles" "p") "y.bin") :=
  ⟨rfl,
   read_path_fallback_last_segment emptyFs "p" "usr" "sys" ["x", "y.bin"]
     "y.bin" rfl rfl rfl⟩

/-- C5: `read_paths` returns exactly the joined paths that exist, user root
first: both existing gives exactly the two paths, neither existing gives the
empty list with no fallback entry. -/
theorem read_paths_existing_in_root_order
    (fs : FileSys) (name userDir sysDir : String) (parts : List String) :
    (pathExists fs (candidate userDir name parts) = true →
     pathExists fs (candidate sysDir name parts) = true →
     read_paths fs name [userDir, sysDir] parts
       = [candidate userDir name parts, candidate sysDir name parts])
    ∧ (pathExists fs (candidate userDir name parts) = false →
       pathExists fs (candidate sysDir name parts) = false →
       read_paths fs name [userDir, sysDir] parts = []) := by
  constructor <;> intro hu hs <;> simp [read_paths, List.filter, hu, hs]

/-- Applies `read_paths_existing_in_root_order` to a filesystem holding the
file under both roots and to the empty filesystem. -/
theorem read_paths_existing_in_root_order_witness :
    read_paths exBoth "p" ["usr", "sys"] ["profile.json"]
      = [candidate "usr" "p" ["profile.json"], candidate "sys" "p" ["profile.json"]]
    ∧ read_paths emptyFs "p" ["usr", "sys"] ["profile.json"] = [] :=
  ⟨(read_paths_existing_in_root_order exBoth "p" "usr" "sys" ["profile.json"]).1 rfl rfl,
   (read_paths_existing_in_root_order emptyFs "p" "usr" "sys" ["profile.json"]).2 rfl rfl⟩

/-- C10: `read_path` with an empty parts list raises `IndexError` (modelled
as `none`) when `<root>/<name>` exists under neither root; with a non-empty
parts list it always returns a path. -/
theorem read_path_empty_parts_raises
    (fs : FileSys) (name userDir sysDir : String) :
    (pathExists fs (pjoin userDir name) = false →
     pathExists fs (pjoin sysDir name) = false →
     read_path fs name [userDir, sysDir] [] = none)
    ∧ (∀ parts : List String, parts ≠ [] →
        (read_path fs name [userDir, sysDir] parts).isSome = true) := by
  constructor
  · intro hu hs
    have hf : List.find? (fun d => pathExists fs (candidate d name []))
        [userDir, sysDir] = none := by
      rw [List.find?_cons_of_neg, List.find?_cons_of_neg] <;>
        simp [candidate, joinParts, hu, hs]
    simp [read_path, hf]
  · intro parts hne
    rw [read_path]
    cases hf : List.find? (fun d => pathExists fs (candidate d name parts))
        [userDir, sysDir] with
    | some d => simp
    | none => simp [List.getLast?_isSome.2 hne]

/-- Applies `read_path_empty_parts_raises` on the empty filesystem. -/
theorem read_path_empty_parts_raises_witness :
    read_path emptyFs "p" ["usr", "sys"] [] = none
    ∧ (read_path emptyFs "p" ["usr", "sys"] ["a"]).isSome = true :=
  ⟨(read_path_empty_parts_raises emptyFs "p" "usr" "sys").1 rfl rfl,
   (read_path_empty_parts_raises emptyFs "p" "usr" "sys").2 ["a"] (by simp)⟩

/-- C6: a per-root directory-creation failure in `write_path` is non-fatal —
the next root is tried; once every root has failed, the result is the
fallback path under the literal base directory `"profiles"`, whose containing
directory is force-created, and only a failure of that final creation
propagates (`none`). -/
theorem write_path_fallback_fatality
    (fs : FileSys) (name userDir sysDir : String) (parts : List String)
    (hu : dirName (candidate userDir name parts) ∈ fs.deny) :
    (dirName (candidate sysDir name parts) ∉ fs.deny →
      write_path fs name [userDir, sysDir] parts
        = some (candidate sysDir name parts,
                { fs with dirs := dirName (candidate sysDir name parts) :: fs.dirs }))
    ∧ (dirName (candidate sysDir name parts) ∈ fs.deny →
      write_path fs name [userDir, sysDir] parts
        = (makedirs fs (dirName (candidate "profiles" name parts))).map
            (fun fs' => (candidate "profiles" name parts, fs')))
    ∧ (dirName (candidate sysDir name parts) ∈ fs.deny →
      dirName (candidate "profiles" name parts) ∈ fs.deny →
      write_path fs name [userDir, sysDir] parts = none) := by
  refine ⟨?_, ?_, ?_⟩
  · intro hs
    simp [write_path, makedirs, hu, hs]
  · intro hs
    simp [write_path, makedirs, hu, hs]
  · intro hs hb
    simp [write_path, makedirs, hu, hs, hb]

/-- Filesystem denying creation under the user root only. -/
def fsDenyUser : FileSys := { files := [], dirs := [], deny := ["usr/p/m"] }

/-- Filesystem denying creation under both roots. -/
def fsDenyBoth : FileSys := { files := [], dirs := [], deny := ["usr/p/m", "sys/p/m"] }

/-- Filesystem denying creation under both roots and the fallback. -/
def fsDenyAll : FileSys :=
  { files := [], dirs := [], deny := ["usr/p/m", "sys/p/m", "profiles/p/m"] }

/-- Applies `write_path_fallback_fatality` at concrete inputs: skipping to the
system root, falling back to `"profiles"`, and the fatal case. -/
theorem write_path_fallback_fatality_witness :
    write_path fsDenyUser "p" ["usr", "sys"] ["m", "f.txt"]
      = some (candidate "sys" "p" ["m", "f.txt"],
              { fsDenyUser with dirs := dirName (candidate "sys" "p" ["m", "f.txt"]) :: fsDenyUser.dirs })
    ∧ write_path fsDenyBoth "p" ["usr", "sys"] ["m", "f.txt"]
        = (makedirs fsDenyBoth (dirName (candidate "profiles" "p" ["m", "f.txt"]))).map
            (fun fs' => (candidate "profiles" "p" ["m", "f.txt"], fs'))
    ∧ write_path fsDenyAll "p" ["usr", "sys"] ["m", "f.txt"] = none :=
  ⟨(write_path_fallback_fatality fsDenyUser "p" "usr" "sys" ["m", "f.txt"]
      (by decide)).1 (by decide),
   (write_path_fallback_fatality fsDenyBoth "p" "usr" "sys" ["m", "f.txt"]
      (by decide)).2.1 (by decide),
   (write_path_fallback_fatality fsDenyAll "p" "usr" "sys" ["m", "f.txt"]
      (by decide)).2.2 (by decide) (by decide)⟩

/-- A readable file makes `os.path.exists` true. -/
theorem pathExists_of_readFile {fs : FileSys} {p : String} {c : Json}
    (h : readFile fs p = some c) : pathExists fs p = true := by
  unfold readFile at h
  unfold pathExists
  cases hf : fs.files.find? (fun e => e.1 == p) with
  | none => rw [hf] at h; simp at h
  | some e =>
    have hpa := List.find?_some hf
    rw [Bool.or_eq_true]
    exact Or.inl (List.any_eq_true.2
      ⟨e, List.mem_of_find?_eq_some hf, hpa⟩)

/-- C7: with the default selector, construction fails (`none`) when
`defaults.json` is missing from the system root or when
`<system_root>/<name>/profile.json` is missing, while absence of the
optional user-root overlay is silently skipped and construction still
succeeds.  (The system-root overlay coincides with the mandatory system
profile file, so it is present whenever construction reaches stage 3.) -/
theorem mandatory_fatal_overlays_optional
    (fs : FileSys) (name sysDir userDir : String) :
    (readFile fs (pjoin sysDir "defaults.json") = none →
      mkProfile fs name sysDir userDir "all" = none)
    ∧ (readFile fs (pjoin (pjoin sysDir name) "profile.json") = none →
      mkProfile fs name sysDir userDir "all" = none)
    ∧ (∀ D S, readFile fs (pjoin sysDir "defaults.json") = some D →
        readFile fs (pjoin (pjoin sysDir name) "profile.json") = some S →
        pathExists fs (pjoin (pjoin userDir name) "profile.json") = false →
        mkProfile fs name sysDir userDir "all"
          = some { name,
                   system_profiles_dir := sysDir,
                   user_profiles_dir := userDir,
                   profiles_dirs := [userDir, sysDir],
                   layers := "all",
                   json := recursive_update D S,
                   system_json := recursive_update D S,
                   json_path := read_path fs name [userDir, sysDir] ["profile.json"] }) := by
  refine ⟨?_, ?_, ?_⟩
  · intro h
    simp [mkProfile, h]
  · intro h
    cases hd : readFile fs (pjoin sysDir "defaults.json") <;>
      simp [mkProfile, hd, h]
  · intro D S hD hS hAbs
    have hex : pathExists fs (pjoin (pjoin sysDir name) "profile.json") = true :=
      pathExists_of_readFile hS
    simp [mkProfile, hD, hS, foldOverlay, hex, hAbs]

/-- Filesystem with both mandatory files and no user overlay. -/
def fsMandatoryOnly : FileSys :=
  { files := [("sys/defaults.json", Json.obj [("a", Json.num 1)]),
              ("sys/p/profile.json", Json.obj [("b", Json.num 2)])],
    dirs := [], deny := [] }

/-- Filesystem missing `defaults.json`. -/
def fsNoDefaults : FileSys :=
  { files := [("sys/p/profile.json", Json.obj [("b", Json.num 2)])],
    dirs := [], deny := [] }

/-- Filesystem missing the system `profile.json`. -/
def fsNoSysProfile : FileSys :=
  { files := [("sys/defaults.json", Json.obj [("a", Json.num 1)])],
    dirs := [], deny := [] }

/-- Applies `mandatory_fatal_overlays_optional` at concrete filesystems: both fatal
cases and the successful overlay-free construction. -/
theorem mandatory_fatal_overlays_optional_witness :
    mkProfile fsNoDefaults "p" "sys" "usr" "all" = none
    ∧ mkProfile fsNoSysProfile "p" "sys" "usr" "all" = none
    ∧ mkProfile fsMandatoryOnly "p" "sys" "usr" "all"
        = some { name := "p",
                 system_profiles_dir := "sys",
                 user_profiles_dir := "usr",
                 profiles_dirs := ["usr", "sys"],
                 layers := "all",
                 json := recursive_update (Json.obj [("a", Json.num 1)])
                   (Json.obj [("b", Json.num 2)]),
                 system_json := recursive_update (Json.obj [("a", Json.num 1)])
                   (Json.obj [("b", Json.num 2)]),
                 json_path := read_path fsMandatoryOnly "p" ["usr", "sys"] ["profile.json"] } :=
  ⟨(mandatory_fatal_overlays_optional fsNoDefaults "p" "sys" "usr").1 rfl,
   (mandatory_fatal_overlays_optional fsNoSysProfile "p" "sys" "usr").2.1 rfl,
   (mandatory_fatal_overlays_optional fsMandatoryOnly "p" "sys" "usr").2.2
     (Json.obj [("a", Json.num 1)]) (Json.obj [("b", Json.num 2)]) rfl rfl rfl⟩

/-- C8: `set` mutates only the final tree — on any constructed handle it
rewrites `json` by the dotted-path assignment and leaves `system_json`
untouched.  (In the code the two trees are produced by independent
`json5.load` calls, so the in-place `pydash.set_` on `json` cannot reach
`system_json` through shared structure.) -/
theorem set_only_affects_json
    (fs : FileSys) (name sysDir userDir layers : String) (p : Profile)
    (hp : mkProfile fs name sysDir userDir layers = some p)
    (path : String) (v : Json) :
    (p.set path v).system_json = p.system_json
    ∧ (p.set path v).json = dottedSet p.json (splitDots path) v :=
  ⟨rfl, rfl⟩

/-- Filesystem with all three layer files present. -/
def fsLayered : FileSys :=
  { files := [("sys/defaults.json", Json.obj [("a", Json.num 1)]),
              ("sys/p/profile.json", Json.obj [("b", Json.num 2)]),
              ("usr/p/profile.json", Json.obj [("c", Json.num 3)])],
    dirs := [], deny := [] }

/-- The handle `mkProfile` builds from `fsLayered` with selector `all`. -/
def exProfile : Profile :=
  { name := "p",
    system_profiles_dir := "sys",
    user_profiles_dir := "usr",
    profiles_dirs := ["usr", "sys"],
    layers := "all",
    json := Json.obj [("a", Json.num 1), ("b", Json.num 2), ("c", Json.num 3)],
    system_json := Json.obj [("a", Json.num 1), ("b", Json.num 2)],
    json_path := some "usr/p/profile.json" }

/-- Applies `set_only_affects_json` on the handle constructed from `fsLayered`. -/
theorem set_only_affects_json_witness :
    mkProfile fsLayered "p" "sys" "usr" "all" = some exProfile
    ∧ (exProfile.set "x.y" (Json.num 9)).system_json = exProfile.system_json
    ∧ (exProfile.set "x.y" (Json.num 9)).json
        = dottedSet exProfile.json (splitDots "x.y") (Json.num 9) :=
  ⟨rfl, set_only_affects_json fsLayered "p" "sys" "usr" "all" exProfile rfl
          "x.y" (Json.num 9)⟩

/-- C1 as stated is false.  On `fsLayered` with selector `defaults`
(defaults `{a:1}`, mandatory system profile `{b:2}`, user overlay `{c:3}`
present on disk), the final tree is the defaults alone: the stage-2 merge of
the system profile on top of the defaults would be `{a:1, b:2}`, which the
final tree does not equal — stage 2 writes only into `system_json`, since
`json` and `system_json` come from two independent `json5.load` calls. -/
theorem defaults_selector_claim_cex :
    (mkProfile fsLayered "p" "sys" "usr" "defaults").map Profile.json
      = some (Json.obj [("a", Json.num 1)])
    ∧ readFile fsLayered (pjoin (pjoin "sys" "p") "profile.json")
        = some (Json.obj [("b", Json.num 2)])
    ∧ pathExists fsLayered (pjoin (pjoin "usr" "p") "profile.json") = true
    ∧ recursive_update (Json.obj [("a", Json.num 1)]) (Json.obj [("b", Json.num 2)])
        ≠ Json.obj [("a", Json.num 1)] := by
  refine ⟨rfl, rfl, rfl, ?_⟩
  have h : recursive_update (Json.obj [("a", Json.num 1)]) (Json.obj [("b", Json.num 2)])
      = Json.obj [("a", Json.num 1), ("b", Json.num 2)] := rfl
  rw [h]
  simp

/-- C1 amended: with selector `defaults`, stage 2 still runs but its merge
reaches only `system_json`; the final tree `json` equals the defaults alone,
excluding the system-profile merge and both optional overlay files even if
they exist on disk. -/
theorem defaults_selector_json_is_defaults
    (fs : FileSys) (name sysDir userDir : String) (D S : Json)
    (hD : readFile fs (pjoin sysDir "defaults.json") = some D)
    (hS : readFile fs (pjoin (pjoin sysDir name) "profile.json") = some S) :
    mkProfile fs name sysDir userDir "defaults"
      = some { name,
               system_profiles_dir := sysDir,
               user_profiles_dir := userDir,
               profiles_dirs := [userDir, sysDir],
               layers := "defaults",
               json := D,
               system_json := recursive_update D S,
               json_path := read_path fs name [userDir, sysDir] ["profile.json"] } := by
  simp [mkProfile, hD, hS]

/-- Applies `defaults_selector_json_is_defaults` on `fsLayered`, where both overlay
files exist on disk and are still excluded from the final tree. -/
theorem defaults_selector_json_is_defaults_witness :
    readFile fsLayered (pjoin "sys" "defaults.json") = some (Json.obj [("a", Json.num 1)])
    ∧ mkProfile fsLayered "p" "sys" "usr" "defaults"
        = some { name := "p",
                 system_profiles_dir := "sys",
                 user_profiles_dir := "usr",
                 profiles_dirs := ["usr", "sys"],
                 layers := "defaults",
                 json := Json.obj [("a", Json.num 1)],
                 system_json := recursive_update (Json.obj [("a", Json.num 1)])
                   (Json.obj [("b", Json.num 2)]),
                 json_path := read_path fsLayered "p" ["usr", "sys"] ["profile.json"] } :=
  ⟨rfl, defaults_selector_json_is_defaults fsLayered "p" "sys" "usr"
          (Json.obj [("a", Json.num 1)]) (Json.obj [("b", Json.num 2)]) rfl rfl⟩

/-- C2's filesystem, reading `sys/p/profile.json` as the system profile
`{b:2, c:2}`.  The "system-root user-profile-file" of the claim denotes the
same path, so its content `{c:3, d:3}` cannot also be on disk. -/
def fsFourA : FileSys :=
  { files := [("sys/defaults.json",
                Json.obj [("a", Json.num 1), ("b", Json.num 1)]),
              ("sys/p/profile.json",
                Json.obj [("b", Json.num 2), ("c", Json.num 2)]),
              ("usr/p/profile.json",
                Json.obj [("d", Json.num 4), ("e", Json.num 4)])],
    dirs := [], deny := [] }

/-- C2's filesystem, reading `sys/p/profile.json` as the "system-root
user-profile-file" `{c:3, d:3}` instead. -/
def fsFourB : FileSys :=
  { files := [("sys/defaults.json",
                Json.obj [("a", Json.num 1), ("b", Json.num 1)]),
              ("sys/p/profile.json",
                Json.obj [("c", Json.num 3), ("d", Json.num 3)]),
              ("usr/p/profile.json",
                Json.obj [("d", Json.num 4), ("e", Json.num 4)])],
    dirs := [], deny := [] }

/-- C2 as stated is false: the system profile file and the system-root
user-profile-file are one path, `<system_root>/<name>/profile.json`, so the
claim's premise admits only the two filesystems `fsFourA` and `fsFourB` —
and with selector `all` neither produces the claimed pair of trees: on
`fsFourA` the final tree is `{a:1,b:2,c:2,d:4,e:4}`, not the claimed
`{a:1,b:2,c:3,d:4,e:4}`; on `fsFourB` `system_json` is `{a:1,b:1,c:3,d:3}`,
not the claimed `{a:1,b:2,c:2}`. -/
theorem layer_precedence_claim_cex :
    (mkProfile fsFourA "p" "sys" "usr" "all").map Profile.json
        ≠ some (Json.obj [("a", Json.num 1), ("b", Json.num 2), ("c", Json.num 3),
                          ("d", Json.num 4), ("e", Json.num 4)])
    ∧ (mkProfile fsFourB "p" "sys" "usr" "all").map Profile.system_json
        ≠ some (Json.obj [("a", Json.num 1), ("b", Json.num 2), ("c", Json.num 2)]) := by
  constructor
  · have h : (mkProfile fsFourA "p" "sys" "usr" "all").map Profile.json
        = some (Json.obj [("a", Json.num 1), ("b", Json.num 2), ("c", Json.num 2),
                          ("d", Json.num 4), ("e", Json.num 4)]) := rfl
    rw [h]
    simp
  · have h : (mkProfile fsFourB "p" "sys" "usr" "all").map Profile.system_json
        = some (Json.obj [("a", Json.num 1), ("b", Json.num 1), ("c", Json.num 3),
                          ("d", Json.num 3)]) := rfl
    rw [h]
    simp

/-- C2 amended: the system profile file and the system-root user-profile-file
are the same file.  Given defaults `{a:1,b:1}`, system profile `{b:2,c:2}`
(also serving as the system-root overlay) and user-root profile file
`{d:4,e:4}`, selector `all` yields `json = {a:1,b:2,c:2,d:4,e:4}` and
`system_json = {a:1,b:2,c:2}`. -/
theorem layer_precedence_end_to_end :
    (mkProfile fsFourA "p" "sys" "usr" "all").map Profile.json
      = some (Json.obj [("a", Json.num 1), ("b", Json.num 2), ("c", Json.num 2),
                        ("d", Json.num 4), ("e", Json.num 4)])
    ∧ (mkProfile fsFourA "p" "sys" "usr" "all").map Profile.system_json
      = some (Json.obj [("a", Json.num 1), ("b", Json.num 2), ("c", Json.num 2)]) :=
  ⟨rfl, rfl⟩

end Rhasspy
